import Mathlib

/-!
Shallow embedding of the booking/webhook behavior of the agendo repository.

Time is modelled in minutes (as `Int`): the availability handler builds
`Date` objects for whole hours of one day and compares them numerically,
so a slot starting at hour `h` is the half-open minute interval
`[h*60, (h+1)*60)`.

Sources embedded below:
- the Google-Calendar availability handler (`GET`, busy-overlap check and
  slot generation loop `for (let hour = 9; hour < 18; hour++)`),
- the Google-Calendar booking handler (`POST`),
- the Twilio webhook handler (`POST` with signature validation),
- the Evolution webhook route (`POST`, `processWebhookAsync`,
  `handleConnectionUpdate`, `handleIncomingMessage`, `handleQRCodeUpdate`),
- the stubbed token store `getStoredTokens` (it returns `null`).
-/

/-- A busy interval fetched from the external calendar:
`{ start: ..., end: ..., summary }` (the summary is irrelevant to the
overlap computation and omitted). The source field `end` is a Lean
keyword, hence the guillemets. -/
structure BusySlot where
  start : Int
  «end» : Int
deriving DecidableEq, Repr

/-- An entry of the `availableSlots` array built by the availability
handler: `{ start, end, available }`. -/
structure Slot where
  start : Int
  «end» : Int
  available : Bool
deriving DecidableEq, Repr

/-- `isOccupied` of the availability handler: the slot is occupied iff some
busy interval satisfies `slotStart < busyEnd && slotEnd > busyStart`. -/
def isOccupied (slotStart slotEnd : Int) (busySlots : List BusySlot) : Bool :=
  busySlots.any fun busy => slotStart < busy.«end» && slotEnd > busy.start

/-- The slot-generation loop of the availability handler:
`for (let hour = 9; hour < 18; hour++)` pushes
`{ start: slotStart, end: slotEnd, available: true }` only when the slot is
not occupied. `List.range' 9 9` is the hour sequence `[9, ..., 17]`. -/
def availableSlots (busySlots : List BusySlot) : List Slot :=
  (List.range' 9 9).filterMap fun (hour : Nat) =>
    if isOccupied ((hour : Int) * 60) (((hour : Int) + 1) * 60) busySlots then none
    else some { start := (hour : Int) * 60, «end» := ((hour : Int) + 1) * 60, available := true }

/-- JavaScript truthiness of a nullable string: `null`/`undefined` and the
empty string are falsy. -/
def jsTruthy : Option String → Bool
  | none => false
  | some s => !(s == "")

/-- JavaScript `a || b` on nullable strings: returns `a` when truthy,
otherwise `b`. -/
def jsOr (a b : Option String) : Option String :=
  if jsTruthy a then a else b

/-- Does the second character sequence start with the first? -/
def charSeqStartsWith : List Char → List Char → Bool
  | [], _ => true
  | _ :: _, [] => false
  | a :: as, b :: bs => a == b && charSeqStartsWith as bs

/-- Does the pattern occur as a contiguous subsequence of the sequence? -/
def charSeqHasSub (pat : List Char) : List Char → Bool
  | [] => charSeqStartsWith pat []
  | l@(_ :: rest) => charSeqStartsWith pat l || charSeqHasSub pat rest

/-- JavaScript `s.includes(pat)`: substring containment. -/
def includesSubstr (s pat : String) : Bool :=
  charSeqHasSub pat.toList s.toList

/-- The stored OAuth token record the stubbed store would return. -/
structure StoredTokens where
  access_token : String
  refresh_token : String
deriving DecidableEq, Repr

/-- `getStoredTokens` as written in both calendar handlers: it always
returns `null` ("TODO: Obtener de base de datos real"). -/
def getStoredTokens (_instanceName : String) : Option StoredTokens := none

/-- Responses of the availability `GET` handler, by source branch:
missing query params (400), no stored tokens (401), e success payload
(200, carrying the computed slots), catch-all error (500). -/
inductive AvailabilityResponse where
  | serverError
  | paramsRequired
  | notConnected
  | ok (slots : List Slot)
deriving DecidableEq, Repr

/-- The availability `GET` handler: check `instance`/`date` params,
read stored tokens, and (hypothetically) answer with the computed slots.
`busy` stands for the busy intervals the handler would fetch from the
external calendar: the fetch sits behind the token check, which always
fails in the current code. -/
def availabilityGET (busy : List BusySlot) (inst date : Option String) : AvailabilityResponse :=
  if !jsTruthy inst || !jsTruthy date then .paramsRequired
  else
    match getStoredTokens (inst.getD "") with
    | none => .notConnected
    | some _ => .ok (availableSlots busy)

/-- The JSON body of the booking `POST` handler. The source field
`instance` is a Lean keyword, hence the guillemets. -/
structure BookingBody where
  «instance» : Option String
  title : Option String
  description : Option String
  startTime : Option String
  endTime : Option String
  customerEmail : Option String
  customerName : Option String
deriving DecidableEq, Repr

/-- Responses of the booking `POST` handler, by source branch: body parse
failure (500 via the catch), missing required fields (400), no stored
tokens (401), created event (200 with the external event id). -/
inductive BookingResponse where
  | serverError
  | missingFields
  | notConnected
  | created (eventId : String)
deriving DecidableEq, Repr

/-- The booking `POST` handler. `insertEvent` stands for the external
`calendar.events.insert` call returning the created event id; `none` as
the body models an unparseable JSON payload (the `request.json()` throw
lands in the catch). The handler performs no availability check of any
kind before inserting. -/
def bookingPOST (insertEvent : BookingBody → String) (body : Option BookingBody) :
    BookingResponse :=
  match body with
  | none => .serverError
  | some b =>
    if !jsTruthy b.«instance» || !jsTruthy b.title || !jsTruthy b.startTime
        || !jsTruthy b.endTime then
      .missingFields
    else
      match getStoredTokens (b.«instance».getD "") with
      | none => .notConnected
      | some _ => .created (insertEvent b)

/-- Observable effects of the Evolution webhook route: every `console.log`
of interest and the outbound message send (which the current handlers never
perform; `sendAutoReply` is defined but unreferenced). -/
inductive Effect where
  | logProcessing (event instanceName : Option String)
  | logConnectionUpdate
  | logConnected
  | logDisconnected
  | logMessageFrom (sender text : Option String)
  | logIncomingAccepted
  | logQRUpdate
  | logUnhandled (event : Option String)
  | sendText («to» text : String)
deriving DecidableEq, Repr

/-- Is an effect an outbound message send? -/
def isSendEffect : Effect → Bool
  | .logProcessing _ _ => false
  | .logConnectionUpdate => false
  | .logConnected => false
  | .logDisconnected => false
  | .logMessageFrom _ _ => false
  | .logIncomingAccepted => false
  | .logQRUpdate => false
  | .logUnhandled _ => false
  | .sendText _ _ => true

/-- The outbound sends among a list of effects. -/
def outboundSends (l : List Effect) : List Effect :=
  l.filter isSendEffect

/-- `message.key` of an Evolution message: `{ remoteJid }`. -/
structure EvoMessageKey where
  remoteJid : Option String
deriving DecidableEq, Repr

/-- `message.message.extendedTextMessage`: `{ text }`. -/
structure EvoExtendedText where
  text : Option String
deriving DecidableEq, Repr

/-- `message.message` of an Evolution message: `{ conversation,
extendedTextMessage }`. -/
structure EvoMessageContent where
  conversation : Option String
  extendedTextMessage : Option EvoExtendedText
deriving DecidableEq, Repr

/-- One Evolution message object as read by `handleIncomingMessage`. -/
structure EvoMessage where
  messageType : Option String
  key : Option EvoMessageKey
  message : Option EvoMessageContent
deriving DecidableEq, Repr

/-- The `data` field of an Evolution webhook body. `selfMessage` is the
same JSON object viewed as a single message: `handleIncomingMessage` falls
back to `[data]` when `data.messages` is absent. -/
structure EvoEventData where
  state : Option String
  messages : Option (List EvoMessage)
  selfMessage : EvoMessage
deriving DecidableEq, Repr

/-- The Evolution webhook JSON body: `{ event, instance, data }`. The
source field `instance` is a Lean keyword, hence the guillemets. -/
structure EvoWebhookBody where
  event : Option String
  «instance» : Option String
  data : EvoEventData
deriving DecidableEq, Repr

/-- `data.messages || [data]` of `handleIncomingMessage` (an empty array
is truthy in JavaScript, so a present-but-empty `messages` wins). -/
def resolvedMessages (d : EvoEventData) : List EvoMessage :=
  match d.messages with
  | some l => l
  | none => [d.selfMessage]

/-- The body of the per-message loop in `handleIncomingMessage`: text
messages are logged; a message with truthy text and sender whose JID is
not a group (`@g.us`) reaches the inner branch (the agent hook point,
currently a log only — auto-reply is disabled). -/
def handleMessageEvent (m : EvoMessage) : List Effect :=
  if m.messageType = some "conversation" ∨ m.messageType = some "extendedTextMessage" then
    Effect.logMessageFrom (m.key.bind fun k => k.remoteJid)
        (jsOr (m.message.bind fun c => c.conversation)
          ((m.message.bind fun c => c.extendedTextMessage).bind fun e => e.text)) ::
      (if jsTruthy (jsOr (m.message.bind fun c => c.conversation)
            ((m.message.bind fun c => c.extendedTextMessage).bind fun e => e.text))
          && jsTruthy (m.key.bind fun k => k.remoteJid)
          && !includesSubstr ((m.key.bind fun k => k.remoteJid).getD "") "@g.us" then
        [Effect.logIncomingAccepted]
      else [])
  else []

/-- `handleIncomingMessage`: iterate the per-message loop over
`data.messages || [data]`. -/
def handleIncomingMessage (d : EvoEventData) : List Effect :=
  ((resolvedMessages d).map handleMessageEvent).flatten

/-- `handleConnectionUpdate`: always logs, then logs connected or
disconnected according to `data.state`. -/
def handleConnectionUpdate (d : EvoEventData) : List Effect :=
  Effect.logConnectionUpdate ::
    (if d.state = some "open" then [Effect.logConnected]
     else if d.state = some "close" then [Effect.logDisconnected]
     else [])

/-- `processWebhookAsync`: log the event, then dispatch on `event`;
anything but the three known kinds is logged as unhandled and dropped. -/
def processWebhookAsync (b : EvoWebhookBody) : List Effect :=
  Effect.logProcessing b.event b.«instance» ::
    match b.event with
    | some "connection.update" => handleConnectionUpdate b.data
    | some "messages.upsert" => handleIncomingMessage b.data
    | some "qrcode.updated" => [Effect.logQRUpdate]
    | _ => [Effect.logUnhandled b.event]

/-- The Evolution webhook `POST` handler: an unparseable JSON body throws
in `request.json()` and lands in the catch (HTTP 500, nothing processed);
a parsed body is acknowledged with HTTP 200 and processed asynchronously
(fire-and-forget). Result: (HTTP status, effects of the background
processing). -/
def evolutionPOST (body : Option EvoWebhookBody) : Nat × List Effect :=
  match body with
  | none => (500, [])
  | some b => (200, processWebhookAsync b)

/-- Processing a sequence of webhook deliveries: the route keeps no state
between requests, so the effects are the concatenation of each
delivery's effects. -/
def effectsOfDeliveries (l : List EvoWebhookBody) : List Effect :=
  (l.map processWebhookAsync).flatten

/-- The Twilio webhook `POST` handler: validation runs only when both the
`x-twilio-signature` header and `PUBLIC_WEBHOOK_URL` are truthy; an
invalid signature is rejected with 401 before any processing, anything
else is acknowledged 200 and processed (`processMessageAsync` fired).
`isValid` stands for the external `validateRequest` result. Result:
(HTTP status, whether the message was processed). -/
def twilioPOST (twilioSignature publicWebhookUrl : Option String) (isValid : Bool) :
    Nat × Bool :=
  if jsTruthy twilioSignature && jsTruthy publicWebhookUrl then
    if !isValid then (401, false) else (200, true)
  else (200, true)

/-- Sample Evolution message: a plain text ("conversation") message from
an individual chat. -/
def sampleMessage : EvoMessage :=
  { messageType := some "conversation"
    key := some { remoteJid := some "573001112233@s.whatsapp.net" }
    message := some { conversation := some "Hola, quiero una cita", extendedTextMessage := none } }

/-- A message object with no recognizable fields. -/
def emptyMessage : EvoMessage :=
  { messageType := none, key := none, message := none }

/-- Sample Evolution `messages.upsert` webhook delivery carrying
`sampleMessage`. -/
def sampleUpsertBody : EvoWebhookBody :=
  { event := some "messages.upsert"
    «instance» := some "TENANT_abc"
    data := { state := none, messages := some [sampleMessage], selfMessage := emptyMessage } }

/-- Sample webhook delivery with an event kind the route does not
handle. -/
def unknownEventBody : EvoWebhookBody :=
  { event := some "application.startup"
    «instance» := some "TENANT_abc"
    data := { state := none, messages := none, selfMessage := emptyMessage } }

/-- Sample well-formed booking request for the 14:00-15:00 slot. -/
def occupiedSlotBooking : BookingBody :=
  { «instance» := some "TENANT_abc"
    title := some "Cita 14:00"
    description := none
    startTime := some "2025-05-20T14:00:00"
    endTime := some "2025-05-20T15:00:00"
    customerEmail := none
    customerName := some "Ana" }

/-- C1: a candidate slot is occupied iff some busy interval satisfies the
half-open overlap predicate `slot.start < busy.end && slot.end > busy.start`;
in particular, against a busy interval, a slot starting at its end or
ending at its start is not occupied (boundary touching is available). -/
theorem isOccupied_half_open_overlap (s e : Int) (bs : List BusySlot) :
    (isOccupied s e bs = true ↔ ∃ b ∈ bs, s < b.«end» ∧ e > b.start) ∧
    (∀ b : BusySlot, isOccupied b.«end» e [b] = false) ∧
    (∀ b : BusySlot, isOccupied s b.start [b] = false) := by
  refine ⟨?_, ?_, ?_⟩
  · simp [isOccupied, List.any_eq_true]
  · intro b; simp [isOccupied]
  · intro b; simp [isOccupied]

/-- C2 counterexample: for busy = [{09:00, 10:00}] the handler returns
only slots flagged available — eight of them (its window is the fixed
09:00-18:00) — and the occupied 09:00-10:00 candidate slot is omitted
entirely rather than returned with an unavailable flag, even though it is
a candidate of the window and occupied. -/
theorem availability_omits_unavailable_slots :
    ((availableSlots [⟨540, 600⟩]).all fun s => s.available) = true ∧
    (availableSlots [⟨540, 600⟩]).length = 8 ∧
    (∀ s ∈ availableSlots [⟨540, 600⟩], s.start ≠ 540) ∧
    isOccupied 540 600 [⟨540, 600⟩] = true := by
  refine ⟨by decide, by decide, by decide, by decide⟩

/-- C2 amended: for busy = [{09:00, 10:00}] the availability computation
(fixed window 09:00-18:00, 60-minute slots) returns exactly the eight
free slots 10:00-18:00 in chronological order, each flagged available;
occupied candidate slots are omitted from the returned list. -/
theorem availableSlots_busy_nine_to_ten :
    availableSlots [⟨540, 600⟩] =
      [⟨600, 660, true⟩, ⟨660, 720, true⟩, ⟨720, 780, true⟩, ⟨780, 840, true⟩,
       ⟨840, 900, true⟩, ⟨900, 960, true⟩, ⟨960, 1020, true⟩, ⟨1020, 1080, true⟩] := by
  decide

/-- Helper: slots produced by filtering a strictly increasing hour list
through the slot generator are pairwise adjacent-or-later. -/
theorem pairwise_filterMap_hour_slots (f : Nat → Option Slot)
    (hf : ∀ h s, f h = some s → s.start = (h : Int) * 60 ∧ s.«end» = ((h : Int) + 1) * 60)
    (l : List Nat) (hl : l.Pairwise (· < ·)) :
    (l.filterMap f).Pairwise fun a b => a.«end» ≤ b.start ∧ a.start < b.start := by
  induction l with
  | nil => simp
  | cons a t ih =>
    rw [List.pairwise_cons] at hl
    rw [List.filterMap_cons]
    cases hfa : f a with
    | none => exact ih hl.2
    | some s =>
      rw [List.pairwise_cons]
      refine ⟨?_, ih hl.2⟩
      intro y hy
      rcases List.mem_filterMap.mp hy with ⟨b, hb, hfb⟩
      obtain ⟨hs1, hs2⟩ := hf a s hfa
      obtain ⟨hy1, hy2⟩ := hf b y hfb
      have hab : a < b := hl.1 b hb
      constructor
      · rw [hs2, hy1]; omega
      · rw [hs1, hy1]; omega

/-- Helper: every slot in the handler's output comes from an hour in
[9, 18) and carries that hour's bounds and an available flag. -/
theorem mem_availableSlots (bs : List BusySlot) (s : Slot) (hs : s ∈ availableSlots bs) :
    ∃ hour : Nat, 9 ≤ hour ∧ hour < 18 ∧ s.start = (hour : Int) * 60 ∧
      s.«end» = ((hour : Int) + 1) * 60 ∧ s.available = true := by
  unfold availableSlots at hs
  rcases List.mem_filterMap.mp hs with ⟨hour, hmem, hgen⟩
  have hrange : 9 ≤ hour ∧ hour < 18 := by
    have := List.mem_range'_1.mp hmem
    omega
  refine ⟨hour, hrange.1, hrange.2, ?_⟩
  by_cases hocc : isOccupied ((hour : Int) * 60) (((hour : Int) + 1) * 60) bs = true
  · rw [if_pos hocc] at hgen
    exact absurd hgen (by simp)
  · rw [if_neg hocc] at hgen
    injection hgen with h
    subst h
    exact ⟨rfl, rfl, rfl⟩

/-- C3: for every busy-interval set, the returned slots are pairwise
non-overlapping (each ends before the next starts), sorted strictly
ascending by start time, and lie within the working window
[09:00, 18:00) — `9*60` to `18*60` minutes, the loop's bounds. -/
theorem availableSlots_sorted_disjoint_within_window (bs : List BusySlot) :
    ((availableSlots bs).Pairwise fun a b => a.«end» ≤ b.start) ∧
    ((availableSlots bs).Pairwise fun a b => a.start < b.start) ∧
    ∀ s ∈ availableSlots bs,
      (9 : Int) * 60 ≤ s.start ∧ s.start < s.«end» ∧ s.«end» ≤ (18 : Int) * 60 := by
  have key : (availableSlots bs).Pairwise
      fun a b => a.«end» ≤ b.start ∧ a.start < b.start := by
    unfold availableSlots
    apply pairwise_filterMap_hour_slots
    · intro h s hgen
      by_cases hocc : isOccupied ((h : Int) * 60) (((h : Int) + 1) * 60) bs = true
      · rw [if_pos hocc] at hgen
        exact absurd hgen (by simp)
      · rw [if_neg hocc] at hgen
        injection hgen with hg
        subst hg
        exact ⟨rfl, rfl⟩
    · decide
  refine ⟨key.imp fun h => h.1, key.imp fun h => h.2, ?_⟩
  intro s hs
  rcases mem_availableSlots bs s hs with ⟨hour, h9, h18, hst, hen, _⟩
  rw [hst, hen]
  constructor
  · omega
  constructor
  · omega
  · omega

/-- Helper: every booking request ends in a parse error, a missing-fields
rejection or a not-connected rejection — the stored-token lookup always
returns `null`, so the event-creation branch is unreachable. -/
theorem bookingPOST_cases (insertEvent : BookingBody → String) (body : Option BookingBody) :
    bookingPOST insertEvent body = BookingResponse.serverError ∨
    bookingPOST insertEvent body = BookingResponse.missingFields ∨
    bookingPOST insertEvent body = BookingResponse.notConnected := by
  cases body with
  | none => exact Or.inl rfl
  | some b =>
    by_cases h : (!jsTruthy b.«instance» || !jsTruthy b.title || !jsTruthy b.startTime
        || !jsTruthy b.endTime) = true
    · right; left
      simp [bookingPOST, h]
    · right; right
      simp only [Bool.not_eq_true] at h
      simp [bookingPOST, h, getStoredTokens]

/-- C4 counterexample: on a well-formed booking request for an occupied
14:00-15:00 slot the handler returns 401 not-connected — it neither
re-fetches availability, nor returns any conflict outcome, nor creates
the event; the outcome is independent of the external calendar (the
insert callback is never consulted). -/
theorem booking_no_revalidation_counterexample :
    bookingPOST (fun _ => "evt_A") (some occupiedSlotBooking) = BookingResponse.notConnected ∧
    bookingPOST (fun _ => "evt_B") (some occupiedSlotBooking) = BookingResponse.notConnected ∧
    BookingResponse.notConnected ≠ BookingResponse.created "evt_A" := by
  refine ⟨by decide, by decide, by decide⟩

/-- C4 amended: the booking handler performs no availability
re-validation and has no conflict outcome; since the stored-token lookup
always returns `null`, every request ends in 500 (unparseable body), 400
(missing fields) or 401 (calendar not connected), and no calendar event
is ever created — the no-overlap invariant holds vacuously. -/
theorem bookingPOST_never_creates (insertEvent : BookingBody → String)
    (body : Option BookingBody) :
    bookingPOST insertEvent body = BookingResponse.serverError ∨
    bookingPOST insertEvent body = BookingResponse.missingFields ∨
    bookingPOST insertEvent body = BookingResponse.notConnected :=
  bookingPOST_cases insertEvent body

/-- Helper: the availability handler never answers with slots: it rejects
missing params with 400, then the stored-token lookup returns `null` and
it rejects with 401. -/
theorem availabilityGET_cases (busy : List BusySlot) (inst date : Option String) :
    availabilityGET busy inst date = AvailabilityResponse.paramsRequired ∨
    availabilityGET busy inst date = AvailabilityResponse.notConnected := by
  by_cases h : (!jsTruthy inst || !jsTruthy date) = true
  · left
    simp [availabilityGET, h]
  · right
    simp only [Bool.not_eq_true] at h
    simp [availabilityGET, h, getStoredTokens]

/-- C9: the stored-token lookup returns `null` for every instance (no
valid credential ever exists), and both the availability handler and the
booking handler then answer with a not-connected (or
parameter/parse-error) outcome — never a success computed from a stale
token. -/
theorem getStoredTokens_none_no_stale_success :
    (∀ inst : String, getStoredTokens inst = none) ∧
    (∀ (busy : List BusySlot) (inst date : Option String),
        availabilityGET busy inst date = AvailabilityResponse.paramsRequired ∨
        availabilityGET busy inst date = AvailabilityResponse.notConnected) ∧
    (∀ (insertEvent : BookingBody → String) (body : Option BookingBody) (e : String),
        bookingPOST insertEvent body ≠ BookingResponse.created e) := by
  refine ⟨fun _ => rfl, availabilityGET_cases, ?_⟩
  intro insertEvent body e h
  rcases bookingPOST_cases insertEvent body with hc | hc | hc <;>
    rw [hc] at h <;> exact BookingResponse.noConfusion h

/-- Helper: filtering sends distributes over concatenation. -/
theorem outboundSends_append (l1 l2 : List Effect) :
    outboundSends (l1 ++ l2) = outboundSends l1 ++ outboundSends l2 :=
  List.filter_append l1 l2

/-- Helper: the per-message loop body emits logs only, never a send. -/
theorem outboundSends_handleMessageEvent (m : EvoMessage) :
    outboundSends (handleMessageEvent m) = [] := by
  unfold handleMessageEvent
  split
  · split <;> rfl
  · rfl

/-- Helper: `handleIncomingMessage` emits logs only, never a send. -/
theorem outboundSends_handleIncomingMessage (d : EvoEventData) :
    outboundSends (handleIncomingMessage d) = [] := by
  unfold handleIncomingMessage
  generalize resolvedMessages d = l
  induction l with
  | nil => rfl
  | cons m t ih =>
    rw [List.map_cons, List.flatten_cons, outboundSends_append,
      outboundSends_handleMessageEvent, ih]
    rfl

/-- Helper: `handleConnectionUpdate` emits logs only, never a send. -/
theorem outboundSends_handleConnectionUpdate (d : EvoEventData) :
    outboundSends (handleConnectionUpdate d) = [] := by
  unfold handleConnectionUpdate
  split
  · rfl
  · split <;> rfl

/-- Helper: background processing of any single webhook delivery performs
zero outbound sends (the handlers only log; auto-reply is disabled). -/
theorem outboundSends_processWebhookAsync (b : EvoWebhookBody) :
    outboundSends (processWebhookAsync b) = [] := by
  unfold processWebhookAsync
  have hcons : ∀ l : List Effect,
      outboundSends (Effect.logProcessing b.event b.«instance» :: l) = outboundSends l :=
    fun l => rfl
  split
  · rw [hcons, outboundSends_handleConnectionUpdate]
  · rw [hcons, outboundSends_handleIncomingMessage]
  · rfl
  · rfl

/-- Helper: a sequence of deliveries performs zero outbound sends. -/
theorem outboundSends_effectsOfDeliveries (l : List EvoWebhookBody) :
    outboundSends (effectsOfDeliveries l) = [] := by
  unfold effectsOfDeliveries
  induction l with
  | nil => rfl
  | cons b t ih =>
    rw [List.map_cons, List.flatten_cons, outboundSends_append,
      outboundSends_processWebhookAsync, ih]
    rfl

/-- C5 counterexample: delivering the identical `messages.upsert` event
twice makes the route process the message twice (the accepted-message
handling point is reached on both deliveries — nothing is deduplicated;
the handler never even reads a message id), and the two deliveries
together produce zero outbound actions, not one. -/
theorem webhook_replay_reprocessed :
    (effectsOfDeliveries [sampleUpsertBody, sampleUpsertBody]).count
        Effect.logIncomingAccepted = 2 ∧
    outboundSends (effectsOfDeliveries [sampleUpsertBody, sampleUpsertBody]) = [] ∧
    effectsOfDeliveries [sampleUpsertBody, sampleUpsertBody] =
      processWebhookAsync sampleUpsertBody ++ processWebhookAsync sampleUpsertBody := by
  refine ⟨by decide, by decide, by decide⟩

/-- C5 amended: the route keeps no dedup state — every delivery,
duplicate or not, is processed exactly like a first delivery — and since
message handling only logs (auto-reply disabled), any sequence of
deliveries produces zero outbound actions. -/
theorem webhook_stateless_no_dedup (prior : List EvoWebhookBody) (b : EvoWebhookBody) :
    effectsOfDeliveries (prior ++ [b]) = effectsOfDeliveries prior ++ processWebhookAsync b ∧
    outboundSends (effectsOfDeliveries (prior ++ [b])) = [] := by
  constructor
  · unfold effectsOfDeliveries
    rw [List.map_append, List.flatten_append]
    simp
  · exact outboundSends_effectsOfDeliveries (prior ++ [b])

/-- C6 counterexample: an unparseable webhook payload is acknowledged
with HTTP 500 (the `request.json()` throw lands in the catch branch),
not with HTTP 200 as claimed; the event is dropped. -/
theorem malformed_payload_acked_500 :
    (evolutionPOST none).1 = 500 ∧ (evolutionPOST none).1 ≠ 200 ∧
    (evolutionPOST none).2 = [] := by
  refine ⟨rfl, by decide, rfl⟩

/-- C6 amended: a malformed (unparseable) payload is acknowledged with
HTTP 500 and dropped without processing; every parseable payload is
acknowledged with HTTP 200 (background processing is fire-and-forget and
its failures are swallowed — there is no enqueue-failure response). -/
theorem evolutionPOST_status_semantics (body : Option EvoWebhookBody) :
    ((evolutionPOST body).1 = 200 ↔ body ≠ none) ∧
    ((evolutionPOST body).1 = 500 ↔ body = none) ∧
    (evolutionPOST none).2 = [] := by
  cases body <;> simp [evolutionPOST]

/-- C7: a parsed webhook whose `event` is none of `connection.update`,
`messages.upsert`, `qrcode.updated` is acknowledged with HTTP 200, and
its background processing only logs it as unhandled: no conversation
state exists to transition and zero outbound sends happen. -/
theorem unknown_event_acked_and_dropped (b : EvoWebhookBody)
    (h1 : b.event ≠ some "connection.update")
    (h2 : b.event ≠ some "messages.upsert")
    (h3 : b.event ≠ some "qrcode.updated") :
    (evolutionPOST (some b)).1 = 200 ∧
    processWebhookAsync b =
      [Effect.logProcessing b.event b.«instance», Effect.logUnhandled b.event] ∧
    outboundSends (processWebhookAsync b) = [] := by
  refine ⟨rfl, ?_, outboundSends_processWebhookAsync b⟩
  unfold processWebhookAsync
  split
  · rename_i heq
    exact absurd heq h1
  · rename_i heq
    exact absurd heq h2
  · rename_i heq
    exact absurd heq h3
  · rfl

/-- C7 witness: the concrete unknown-event delivery. -/
theorem unknown_event_acked_and_dropped_witness :
    (evolutionPOST (some unknownEventBody)).1 = 200 ∧
    processWebhookAsync unknownEventBody =
      [Effect.logProcessing unknownEventBody.event unknownEventBody.«instance»,
       Effect.logUnhandled unknownEventBody.event] ∧
    outboundSends (processWebhookAsync unknownEventBody) = [] :=
  unknown_event_acked_and_dropped unknownEventBody (by decide) (by decide) (by decide)

/-- C8: the Twilio webhook handler rejects with 401 — and skips
processing — exactly when both the signature header and the public
webhook URL are configured (truthy) and validation fails; whenever the
verification material is not configured the request is acknowledged 200
and processed (logged as unverified), never rejected. -/
theorem twilio_signature_gate (sig url : Option String) (isValid : Bool) :
    ((twilioPOST sig url isValid).1 = 401 ↔
      jsTruthy sig = true ∧ jsTruthy url = true ∧ isValid = false) ∧
    ((twilioPOST sig url isValid).2 = true ↔ (twilioPOST sig url isValid).1 = 200) ∧
    (jsTruthy sig = false → twilioPOST sig url isValid = (200, true)) ∧
    (jsTruthy url = false → twilioPOST sig url isValid = (200, true)) := by
  cases hs : jsTruthy sig <;> cases hu : jsTruthy url <;> cases isValid <;>
    simp [twilioPOST, hs, hu]

/-- C10: the per-message handler reaches its accepted-handling point only
for messages whose `messageType` is `conversation` or
`extendedTextMessage` and whose sender JID does not contain `@g.us`; a
message of any other type is skipped entirely, and no message ever
produces an outbound send. -/
theorem message_handler_guard (m : EvoMessage) :
    (Effect.logIncomingAccepted ∈ handleMessageEvent m →
      (m.messageType = some "conversation" ∨ m.messageType = some "extendedTextMessage") ∧
      includesSubstr ((m.key.bind fun k => k.remoteJid).getD "") "@g.us" = false) ∧
    outboundSends (handleMessageEvent m) = [] ∧
    ((m.messageType ≠ some "conversation" ∧ m.messageType ≠ some "extendedTextMessage") →
      handleMessageEvent m = []) := by
  refine ⟨?_, outboundSends_handleMessageEvent m, ?_⟩
  · intro hmem
    unfold handleMessageEvent at hmem
    by_cases hty : m.messageType = some "conversation" ∨
        m.messageType = some "extendedTextMessage"
    · refine ⟨hty, ?_⟩
      rw [if_pos hty] at hmem
      rcases List.mem_cons.mp hmem with h | h
      · exact Effect.noConfusion h
      · by_cases hcond : (jsTruthy (jsOr (m.message.bind fun c => c.conversation)
            ((m.message.bind fun c => c.extendedTextMessage).bind fun e => e.text))
            && jsTruthy (m.key.bind fun k => k.remoteJid)
            && !includesSubstr ((m.key.bind fun k => k.remoteJid).getD "") "@g.us") = true
        · simp only [Bool.and_eq_true] at hcond
          rcases hcond with ⟨_, hng⟩
          simpa using hng
        · rw [if_neg hcond] at h
          exact absurd h (List.not_mem_nil _)
    · rw [if_neg hty] at hmem
      exact absurd hmem (List.not_mem_nil _)
  · intro hty
    unfold handleMessageEvent
    rw [if_neg]
    rintro (h | h)
    · exact hty.1 h
    · exact hty.2 h
